import Mathlib

/-!
Verification of the procedural castle generator (`src/scene/castleGenerator.js`)
and the player controller (`src/controls/PlayerController.js`) of the
stained-glass installation repository.

The JavaScript source is shallowly embedded: numbers are modelled as exact
rationals (`ℚ`) or integers (`ℤ`), the JS `%` operator on integers is
`Int.tmod` (truncated remainder, sign of the dividend, exactly as in JS),
`Math.floor` is `Int.floor`, and `Math.min` is `min`.  Angular positions on
the castle ring are recorded in *turns* (fractions of a full circle), i.e.
an angle `2π·t` radians is stored as the rational `t`; the source computes
`cos`/`sin` of these angles only to move to cartesian coordinates, so every
positional equality or enumeration claim is decided by the polar data.
-/

namespace StainedGlass

/-! ### SeededRandom (castleGenerator.js lines 11-28) -/

/-- Modulus of the multiplicative LCG: `2147483647 = 2^31 - 1`. -/
def lcgModulus : ℤ := 2147483647

/-- Step of `SeededRandom.next()` on the stored seed:
`this.seed = (this.seed * 16807) % 2147483647` with JS `%` = truncated
remainder. -/
def srNext (s : ℤ) : ℤ := (s * 16807).tmod lcgModulus

/-- Value returned by `next()` from current stored seed `s`:
`(newSeed - 1) / 2147483646`. -/
def srVal (s : ℤ) : ℚ := ((srNext s : ℚ) - 1) / 2147483646

/-- Stored seed after `n` calls to `next()` starting from initial seed `s0`. -/
def srIter (s0 : ℤ) : ℕ → ℤ
  | 0 => s0
  | n + 1 => srNext (srIter s0 n)

/-- Value returned by the `(n+1)`-st call of `next()` (i.e. after `n` prior
calls) for initial seed `s0`. -/
def srValAt (s0 : ℤ) (n : ℕ) : ℚ := srVal (srIter s0 n)

/-- Embedding of `range(min, max) = min + this.next() * (max - min)` as a
function of the current stored seed. -/
def srRangeVal (s : ℤ) (lo hi : ℚ) : ℚ := lo + srVal s * (hi - lo)

/-- Embedding of `int(min, max) = Math.floor(this.range(min, max + 1))` as a
function of the current stored seed. -/
def srIntVal (s : ℤ) (lo hi : ℤ) : ℤ := ⌊srRangeVal s (lo : ℚ) ((hi : ℚ) + 1)⌋

/-! ### Window dimensions (castleGenerator.js lines 159-177) -/

/-- Embedding of `textureSets[i]?.aspectRatio || 1`: a missing texture set or
a falsy (zero) aspect ratio defaults to `1`. -/
def aspectOrDefault : Option ℚ → ℚ
  | some a => if a = 0 then 1 else a
  | none => 1

/-- Per-window width/height from the texture aspect ratio
(castleGenerator.js lines 160-176, `baseSize = 0.4`):
wide textures get `width = min(0.4·a, 0.7)`, `height = width / a`;
tall textures get `height = min(0.4/a, 0.8)`, `width = height · a`. -/
def windowDims (a : ℚ) : ℚ × ℚ :=
  if 1 ≤ a then
    let width := min ((2 / 5 : ℚ) * a) (7 / 10)
    (width, width / a)
  else
    let height := min ((2 / 5 : ℚ) / a) (4 / 5)
    (height * a, height)

/-! ### Lemmas about SeededRandom -/

lemma lcgModulus_pos : (0 : ℤ) < lcgModulus := by norm_num [lcgModulus]

/-- Under the invariant (positive seed not divisible by the modulus) the
stepped seed lies in `[1, 2147483646]`. -/
lemma srNext_bounds (s : ℤ) (hpos : 0 < s) (hnd : ¬ lcgModulus ∣ s) :
    1 ≤ srNext s ∧ srNext s ≤ 2147483646 := by
  have hmul : (0 : ℤ) ≤ s * 16807 := by positivity
  have htmod : (s * 16807).tmod lcgModulus = (s * 16807) % lcgModulus :=
    Int.tmod_eq_emod hmul (le_of_lt lcgModulus_pos)
  have hlt : (s * 16807) % lcgModulus < lcgModulus :=
    Int.emod_lt_of_pos _ lcgModulus_pos
  have hge : 0 ≤ (s * 16807) % lcgModulus :=
    Int.emod_nonneg _ (ne_of_gt lcgModulus_pos)
  have hne : (s * 16807) % lcgModulus ≠ 0 := by
    intro h0
    have hdvd : lcgModulus ∣ s * 16807 := Int.dvd_of_emod_eq_zero h0
    have hdvdnat : lcgModulus.natAbs ∣ (s * 16807).natAbs := Int.natAbs_dvd_natAbs.mpr hdvd
    rw [Int.natAbs_mul] at hdvdnat
    have hcop : Nat.Coprime lcgModulus.natAbs (16807 : ℤ).natAbs := by
      norm_num [lcgModulus, Nat.Coprime]
    have hdvds : lcgModulus.natAbs ∣ s.natAbs := hcop.dvd_of_dvd_mul_right hdvdnat
    exact hnd (Int.natAbs_dvd_natAbs.mp hdvds)
  constructor
  · rw [srNext, htmod]
    omega
  · rw [srNext, htmod]
    have : lcgModulus = 2147483647 := rfl
    omega

/-- The invariant is preserved by one step. -/
lemma srNext_invariant (s : ℤ) (hpos : 0 < s) (hnd : ¬ lcgModulus ∣ s) :
    0 < srNext s ∧ ¬ lcgModulus ∣ srNext s := by
  obtain ⟨h1, h2⟩ := srNext_bounds s hpos hnd
  refine ⟨by omega, ?_⟩
  intro hdvd
  have := Int.le_of_dvd (by omega) hdvd
  have : lcgModulus = 2147483647 := rfl
  omega

/-- The invariant holds at every iterate. -/
lemma srIter_invariant (s0 : ℤ) (hpos : 0 < s0) (hnd : ¬ lcgModulus ∣ s0) :
    ∀ n, 0 < srIter s0 n ∧ ¬ lcgModulus ∣ srIter s0 n := by
  intro n
  induction n with
  | zero => exact ⟨hpos, hnd⟩
  | succ k ih => exact srNext_invariant _ ih.1 ih.2

/-- Under the invariant, `srVal` lies in `[0, 1)`. -/
lemma srVal_mem (s : ℤ) (hpos : 0 < s) (hnd : ¬ lcgModulus ∣ s) :
    0 ≤ srVal s ∧ srVal s < 1 := by
  obtain ⟨h1, h2⟩ := srNext_bounds s hpos hnd
  have h1q : (1 : ℚ) ≤ (srNext s : ℚ) := by exact_mod_cast h1
  have h2q : (srNext s : ℚ) ≤ 2147483646 := by exact_mod_cast h2
  constructor
  · apply div_nonneg (by linarith) (by norm_num)
  · rw [srVal, div_lt_one (by norm_num : (0:ℚ) < 2147483646)]
    linarith

/-! ### Lemmas about windowDims -/

lemma windowDims_wide (a : ℚ) (h : 1 ≤ a) :
    windowDims a =
      (min ((2 / 5 : ℚ) * a) (7 / 10), min ((2 / 5 : ℚ) * a) (7 / 10) / a) := by
  rw [windowDims, if_pos h]

lemma windowDims_tall (a : ℚ) (h : a < 1) :
    windowDims a =
      (min ((2 / 5 : ℚ) / a) (4 / 5) * a, min ((2 / 5 : ℚ) / a) (4 / 5)) := by
  rw [windowDims, if_neg (not_le.mpr h)]

/-! ### Claim C4 -/

/-- Claim C4, counterexample: the claim quantifies over *every* initial seed,
but for initial seed `0` the very first `next()` returns
`(0·16807 % 2147483647 - 1) / 2147483646 = -1/2147483646 < 0`, outside the
claimed interval `[0, 1)`. -/
theorem c4_counterexample : srValAt 0 0 < 0 := by
  have h : srNext 0 = 0 := by
    rw [srNext]
    norm_num [Int.zero_tmod]
  rw [srValAt, srIter, srVal, h]
  norm_num

/-- Claim C4 (amended): for every initial seed that is positive and not a
multiple of the modulus 2147483647 (in particular every seed in
`[1, 2147483646]`, the documented use), after every number `n` of prior
calls `next()` returns a value in `[0, 1)` — a deterministic function
`srValAt` of the initial seed and `n` — and `int(min, max)` returns an
integer in `[min, max]` inclusive whenever `min ≤ max`. -/
theorem c4_seededRandom_contract (s0 : ℤ) (n : ℕ) (lo hi : ℤ)
    (hpos : 0 < s0) (hnd : s0 % 2147483647 ≠ 0) (hlohi : lo ≤ hi) :
    0 ≤ srValAt s0 n ∧ srValAt s0 n < 1 ∧
    lo ≤ srIntVal (srIter s0 n) lo hi ∧ srIntVal (srIter s0 n) lo hi ≤ hi := by
  have hnd' : ¬ lcgModulus ∣ s0 := by
    intro hdvd
    exact hnd (Int.emod_eq_zero_of_dvd hdvd)
  obtain ⟨hip, hid⟩ := srIter_invariant s0 hpos hnd' n
  obtain ⟨hv0, hv1⟩ := srVal_mem (srIter s0 n) hip hid
  refine ⟨hv0, hv1, ?_, ?_⟩
  · rw [srIntVal, Int.le_floor]
    have hspan : (0 : ℚ) ≤ (hi : ℚ) + 1 - lo := by
      have : (lo : ℚ) ≤ hi := by exact_mod_cast hlohi
      linarith
    have hprod := mul_nonneg hv0 hspan
    rw [srRangeVal]
    linarith [hprod]
  · have hfl : srIntVal (srIter s0 n) lo hi < hi + 1 := by
      rw [srIntVal, Int.floor_lt]
      rw [srRangeVal]
      have hspan : (0 : ℚ) < (hi : ℚ) + 1 - lo := by
        have : (lo : ℚ) ≤ hi := by exact_mod_cast hlohi
        linarith
      have hlt : srValAt s0 n * ((hi : ℚ) + 1 - lo) < (hi : ℚ) + 1 - lo := by
        calc srValAt s0 n * ((hi : ℚ) + 1 - lo) < 1 * ((hi : ℚ) + 1 - lo) := by
              exact mul_lt_mul_of_pos_right hv1 hspan
          _ = (hi : ℚ) + 1 - lo := one_mul _
      push_cast
      rw [srValAt] at hlt
      linarith
    omega

/-- Claim C4, witness at seed 12345 (the constructor default), zero prior
calls, `int(0, 3)`. -/
theorem c4_witness :
    0 ≤ srValAt 12345 0 ∧ srValAt 12345 0 < 1 ∧
    0 ≤ srIntVal (srIter 12345 0) 0 3 ∧ srIntVal (srIter 12345 0) 0 3 ≤ 3 :=
  c4_seededRandom_contract 12345 0 0 3 (by norm_num) (by decide) (by norm_num)

/-! ### Claim C2 -/

/-- Claim C2 (confirmed): writing `(w, h) = windowDims a` for a positive
texture aspect ratio `a`: if `a ≥ 1` then `h ≤ w` with strict inequality for
`a > 1`; if `a = 1` then `w = h`; if `a < 1` then `w < h`; and in every case
`w ≤ 0.7` and `h ≤ 0.8` (the fixed maxima in the generator). -/
theorem c2_window_aspect (a : ℚ) (ha : 0 < a) :
    (1 ≤ a → (windowDims a).2 ≤ (windowDims a).1) ∧
    (1 < a → (windowDims a).2 < (windowDims a).1) ∧
    (a = 1 → (windowDims a).1 = (windowDims a).2) ∧
    (a < 1 → (windowDims a).1 < (windowDims a).2) ∧
    (windowDims a).1 ≤ 7 / 10 ∧ (windowDims a).2 ≤ 4 / 5 := by
  rcases le_or_lt 1 a with h1 | h1
  · rw [windowDims_wide a h1]
    simp only [Prod.fst, Prod.snd]
    have hwpos : (0 : ℚ) < min ((2 / 5 : ℚ) * a) (7 / 10) := by
      apply lt_min (by linarith) (by norm_num)
    have hhw : min ((2 / 5 : ℚ) * a) (7 / 10) / a ≤ min ((2 / 5 : ℚ) * a) (7 / 10) :=
      div_le_self (le_of_lt hwpos) h1
    refine ⟨fun _ => hhw, fun hlt => div_lt_self hwpos hlt, ?_, ?_, ?_, ?_⟩
    · intro he
      rw [he, div_one]
    · intro hlt
      linarith
    · exact min_le_right _ _
    · calc min ((2 / 5 : ℚ) * a) (7 / 10) / a ≤ min ((2 / 5 : ℚ) * a) (7 / 10) := hhw
        _ ≤ 7 / 10 := min_le_right _ _
        _ ≤ 4 / 5 := by norm_num
  · rw [windowDims_tall a h1]
    simp only [Prod.fst, Prod.snd]
    have hhpos : (0 : ℚ) < min ((2 / 5 : ℚ) / a) (4 / 5) := by
      apply lt_min (by positivity) (by norm_num)
    have hwh : min ((2 / 5 : ℚ) / a) (4 / 5) * a < min ((2 / 5 : ℚ) / a) (4 / 5) :=
      mul_lt_of_lt_one_right hhpos h1
    refine ⟨fun hle => absurd hle (not_le.mpr h1), fun hlt => by linarith,
      fun he => by rw [he] at h1; exact absurd h1 (lt_irrefl 1), fun _ => hwh, ?_, ?_⟩
    · have hle : min ((2 / 5 : ℚ) / a) (4 / 5) * a ≤ ((2 / 5 : ℚ) / a) * a :=
        mul_le_mul_of_nonneg_right (min_le_left _ _) (le_of_lt ha)
      rw [div_mul_cancel₀ _ (ne_of_gt ha)] at hle
      linarith
    · exact min_le_right _ _

/-- Claim C2, witness at the aspect ratios 2 (wide) and 1/2 (tall) named by
the spec's example. -/
theorem c2_witness :
    ((1 ≤ (2 : ℚ) → (windowDims 2).2 ≤ (windowDims 2).1) ∧
     (1 < (2 : ℚ) → (windowDims 2).2 < (windowDims 2).1) ∧
     ((2 : ℚ) = 1 → (windowDims 2).1 = (windowDims 2).2) ∧
     ((2 : ℚ) < 1 → (windowDims 2).1 < (windowDims 2).2) ∧
     (windowDims 2).1 ≤ 7 / 10 ∧ (windowDims 2).2 ≤ 4 / 5) ∧
    ((1 ≤ (1 / 2 : ℚ) → (windowDims (1 / 2)).2 ≤ (windowDims (1 / 2)).1) ∧
     (1 < (1 / 2 : ℚ) → (windowDims (1 / 2)).2 < (windowDims (1 / 2)).1) ∧
     ((1 / 2 : ℚ) = 1 → (windowDims (1 / 2)).1 = (windowDims (1 / 2)).2) ∧
     ((1 / 2 : ℚ) < 1 → (windowDims (1 / 2)).1 < (windowDims (1 / 2)).2) ∧
     (windowDims (1 / 2)).1 ≤ 7 / 10 ∧ (windowDims (1 / 2)).2 ≤ 4 / 5) :=
  ⟨c2_window_aspect 2 (by norm_num), c2_window_aspect (1 / 2) (by norm_num)⟩

/-! ### Castle generator data model (castleGenerator.js lines 137-324)

Positions on the castle ring are kept in polar form: a `turn` `t` stands for
the angle `2π·t` radians (the source computes `angle = (i / numWindows) * 2π`
and then `cos angle * radius` / `sin angle * radius`), together with the
radius and vertical coordinate.  Rotations about the vertical axis are also
stored in turns: `rotTurn = 1/4 - t` stands for `rotation.y = -angle + π/2`.
-/

/-- Parameter record mirroring `defaultCastleParams` in `config.js`. -/
structure CastleParams where
  seed : ℤ
  towerCount : ℕ
  towerRadius : ℚ
  towerHeight : ℚ
  wallHeight : ℚ
  wallThickness : ℚ
  baseRadius : ℚ
  windowHeight : ℚ
  windowWidth : ℚ
  crenelationHeight : ℚ
  crenelationCount : ℕ
deriving DecidableEq

/-- Defaults from `config.js` lines 60-72. -/
def defaultCastleParams : CastleParams :=
  { seed := 42, towerCount := 4, towerRadius := 3 / 25, towerHeight := 1,
    wallHeight := 4 / 5, wallThickness := 1 / 10, baseRadius := 1,
    windowHeight := 1 / 2, windowWidth := 7 / 20, crenelationHeight := 2 / 25,
    crenelationCount := 6 }

/-- Identifier of one geometry object created during a `generateCastle` call.
`createWallWithWindow` makes up to six box geometries per wall section,
`createPillar` a cylinder and a cone, and the tail of `generateCastle` makes
the base slab, the floor disk, the skylight plane and two shared frame-bar
box geometries (`frameGeometry` is reused by frames 1 and 2, `frameGeometry2`
by frames 3 and 4). -/
inductive GeomId where
  | wallBottom (i : ℕ)
  | wallTop (i : ℕ)
  | wallLeft (i : ℕ)
  | wallRight (i : ℕ)
  | arch (i : ℕ)
  | sill (i : ℕ)
  | glass (i : ℕ)
  | pillarBody (i : ℕ)
  | pillarCap (i : ℕ)
  | baseSlab
  | floorDisk
  | skylightPane
  | frameNS
  | frameEW
deriving DecidableEq, Repr

/-- Wall section `i`: placed at polar angle `turn·2π` on the ring, rotated
to face outward, with the window opening sized by `windowDims`. -/
structure WallSeg where
  idx : ℕ
  turn : ℚ
  radius : ℚ
  rotTurn : ℚ
  width : ℚ
  height : ℚ
  yOff : ℚ
deriving DecidableEq

/-- Glass pane for window slot `idx` carrying the supplied material handle. -/
structure GlassPane where
  idx : ℕ
  material : ℕ
  turn : ℚ
  radius : ℚ
  y : ℚ
  rotTurn : ℚ
  width : ℚ
  height : ℚ
deriving DecidableEq

/-- Corner pillar between wall sections `idx` and `idx + 1`. -/
structure PillarP where
  idx : ℕ
  turn : ℚ
  radius : ℚ
  height : ℚ
deriving DecidableEq

/-- Wall section for slot `i` (castleGenerator.js lines 186-208): angle
`(i / numWindows)·2π`, radius `baseRadius · 1.2`, `rotation.y = -angle + π/2`,
window centred at `windowYOffset = (wallHeight·1.5)·0.5`. -/
def wallFor (sets : List ℚ) (p : CastleParams) (N i : ℕ) : WallSeg :=
  let dims := windowDims (aspectOrDefault sets[i]?)
  { idx := i
    turn := (i : ℚ) / (N : ℚ)
    radius := p.baseRadius * (6 / 5)
    rotTurn := 1 / 4 - (i : ℚ) / (N : ℚ)
    width := dims.1
    height := dims.2
    yOff := p.wallHeight * (3 / 2) * (1 / 2) }

/-- Glass pane for slot `i` with material `m` (castleGenerator.js lines
210-231): same turn and yaw as the wall, radius offset outward by
`glassOffset = wallThickness/2 + 0.001`. -/
def glassFor (sets : List ℚ) (p : CastleParams) (N i m : ℕ) : GlassPane :=
  let dims := windowDims (aspectOrDefault sets[i]?)
  { idx := i
    material := m
    turn := (i : ℚ) / (N : ℚ)
    radius := p.baseRadius * (6 / 5) + (p.wallThickness * (6 / 5) / 2 + 1 / 1000)
    y := p.wallHeight * (3 / 2) * (1 / 2)
    rotTurn := 1 / 4 - (i : ℚ) / (N : ℚ)
    width := dims.1
    height := dims.2 }

/-- Corner pillar after slot `i` (castleGenerator.js lines 233-242): angular
midpoint of slots `i` and `i+1`, radius `wallRadius + wallThickness/2`,
height `wallHeight · 1.1`. -/
def pillarFor (p : CastleParams) (N i : ℕ) : PillarP :=
  { idx := i
    turn := ((i : ℚ) / (N : ℚ) + ((i : ℚ) + 1) / (N : ℚ)) / 2
    radius := p.baseRadius * (6 / 5) + p.wallThickness * (6 / 5) / 2
    height := p.wallHeight * (3 / 2) * (11 / 10) }

/-- Geometries created by `createWallWithWindow` for slot `i`
(castleGenerator.js lines 70-135): bottom/top slabs only when their height
exceeds `0.01`, then the left and right jambs, the arch and the sill. -/
def wallGeomsFor (sets : List ℚ) (p : CastleParams) (i : ℕ) : List GeomId :=
  let h := (windowDims (aspectOrDefault sets[i]?)).2
  let wallH := p.wallHeight * (3 / 2)
  let yOff := wallH * (1 / 2)
  (if yOff - h / 2 > 1 / 100 then [GeomId.wallBottom i] else []) ++
    (if wallH - (yOff + h / 2) > 1 / 100 then [GeomId.wallTop i] else []) ++
    [GeomId.wallLeft i, GeomId.wallRight i, GeomId.arch i, GeomId.sill i]

/-- Result of one `generateCastle` call: the layout of the new castle group
together with the geometry objects it owns (`geoms`) and the geometries of
the meshes pushed onto the module-level `windowMeshes` list (`windowGeoms`:
one glass pane per supplied material plus the skylight). -/
structure CastleBuild where
  windowCount : ℕ
  walls : List WallSeg
  glasses : List GlassPane
  pillars : List PillarP
  hasBase : Bool
  hasFloor : Bool
  skylight : Option ℕ
  geoms : List GeomId
  windowGeoms : List GeomId
deriving DecidableEq

/-- Geometries created while processing window slot `i` inside the main loop
(castleGenerator.js lines 186-243): the wall-section boxes, the glass plane
when a material is supplied for the slot, then the pillar body and cap. -/
def slotGeoms (sets : List ℚ) (p : CastleParams) (mats : List ℕ) (i : ℕ) : List GeomId :=
  wallGeomsFor sets p i ++
    (match mats[i]? with | some _ => [GeomId.glass i] | none => []) ++
    [GeomId.pillarBody i, GeomId.pillarCap i]

/-- Embedding of the pure layout-construction part of `generateCastle`
(castleGenerator.js lines 137-324).  `cfg` is the `numTextureSets` config
constant, `sets` the aspect ratios of the loaded texture sets, `mats` the
supplied material handles.  The seeded generator is constructed from
`params.seed` (line 151) but never sampled afterwards, which the binding
`_rng` mirrors.  `numWindows = min(numTextureSets, textureSets.length)`
(line 155). -/
def generateCastle (cfg : ℕ) (sets : List ℚ) (mats : List ℕ) (p : CastleParams) :
    CastleBuild :=
  let _rng := p.seed
  let N := min cfg sets.length
  { windowCount := N
    walls := (List.range N).map (wallFor sets p N)
    glasses := (List.range N).filterMap (fun i => (mats[i]?).map (glassFor sets p N i))
    pillars := (List.range N).map (pillarFor p N)
    hasBase := true
    hasFloor := true
    skylight := mats.head?
    geoms := ((List.range N).map (slotGeoms sets p mats)).flatten ++
      [GeomId.baseSlab, GeomId.floorDisk] ++
      (match mats.head? with
        | some _ => [GeomId.skylightPane, GeomId.frameNS, GeomId.frameEW]
        | none => [])
    windowGeoms :=
      (List.range N).filterMap (fun i => (mats[i]?).map (fun _ => GeomId.glass i)) ++
        (match mats.head? with | some _ => [GeomId.skylightPane] | none => []) }

/-! ### Module-level generator state (castleGenerator.js lines 5-8, 141-148, 317) -/

/-- Module state of `castleGenerator.js`: the live castle group (with the
geometries it owns), the `windowMeshes` list (as geometry ids), and a
counter allocating fresh group identities. -/
structure GenState where
  castleGroup : Option (ℕ × List GeomId)
  windowMeshes : List GeomId
  nextId : ℕ
deriving DecidableEq

/-- Effect of one `generateCastle` call on the module state and scene.
`scene` holds the identities of attached castle groups.  Lines 141-148:
if a previous group exists it is removed from the scene and the geometries
of the previous `windowMeshes` are disposed (nothing else is disposed);
line 317 attaches the freshly built group. -/
structure StepOut where
  state : GenState
  scene : List ℕ
  disposed : List GeomId
  build : CastleBuild
deriving DecidableEq

/-- State-passing wrapper of `generateCastle`: clean-up of the previous
group, fresh build, attach. -/
def generateStep (st : GenState) (scene : List ℕ) (cfg : ℕ) (sets : List ℚ)
    (mats : List ℕ) (p : CastleParams) : StepOut :=
  let removed := match st.castleGroup with
    | some g => scene.filter (fun x => x != g.1)
    | none => scene
  let disposed := match st.castleGroup with
    | some _ => st.windowMeshes
    | none => []
  let b := generateCastle cfg sets mats p
  { state := { castleGroup := some (st.nextId, b.geoms), windowMeshes := b.windowGeoms,
               nextId := st.nextId + 1 }
    scene := removed ++ [st.nextId]
    disposed := disposed
    build := b }

/-- Fresh module state: no live group, empty `windowMeshes`. -/
def freshGenState : GenState := { castleGroup := none, windowMeshes := [], nextId := 0 }

/-! ### Claim C3 -/

/-- Claim C3 (confirmed): with the material list and texture-set state fixed,
running `generate` twice with the same params (hence the same seed) — the
second call starting from the module state and scene left by the first —
produces identical wall, pillar and window (glass) layouts: the same
positions (polar turn, radius, height) and rotations. -/
theorem c3_two_run_determinism (st : GenState) (scene : List ℕ) (cfg : ℕ)
    (sets : List ℚ) (mats : List ℕ) (p : CastleParams) :
    (generateStep (generateStep st scene cfg sets mats p).state
        (generateStep st scene cfg sets mats p).scene cfg sets mats p).build.walls =
      (generateStep st scene cfg sets mats p).build.walls ∧
    (generateStep (generateStep st scene cfg sets mats p).state
        (generateStep st scene cfg sets mats p).scene cfg sets mats p).build.pillars =
      (generateStep st scene cfg sets mats p).build.pillars ∧
    (generateStep (generateStep st scene cfg sets mats p).state
        (generateStep st scene cfg sets mats p).scene cfg sets mats p).build.glasses =
      (generateStep st scene cfg sets mats p).build.glasses :=
  ⟨rfl, rfl, rfl⟩

/-! ### Claim C10 -/

/-- Claim C10 (confirmed): the generated castle is independent of
`params.seed`: replacing the seed by any other value while keeping every
other parameter, the material list and the texture sets fixed yields the
identical `CastleBuild` (geometry, positions, rotations), because the seeded
generator constructed on line 151 is never sampled during generation. -/
theorem c10_seed_never_sampled (cfg : ℕ) (sets : List ℚ) (mats : List ℕ)
    (p : CastleParams) (s2 : ℤ) :
    generateCastle cfg sets mats { p with seed := s2 } = generateCastle cfg sets mats p :=
  rfl

/-! ### Claim C5 -/

/-- Claim C5 (confirmed): with `N = min(numTextureSets, textureSets.length)`
window slots, the generator produces exactly `N` wall segments, segment `i`
at outward angle `2π·(i/N)` (turn `i/N`) on the circle of radius
`baseRadius · 1.2`, and exactly `N` corner pillars, pillar `i` at the angular
midpoint of the turns `i/N` and `(i+1)/N` at radius larger by
`wallThickness·1.2/2`; `N = 0` yields zero segments and pillars while the
base and floor are still produced (and, the embedding being total, nothing
crashes). -/
theorem c5_ring_arrangement (cfg : ℕ) (sets : List ℚ) (mats : List ℕ)
    (p : CastleParams) :
    (generateCastle cfg sets mats p).walls.length = min cfg sets.length ∧
    (generateCastle cfg sets mats p).pillars.length = min cfg sets.length ∧
    (generateCastle cfg sets mats p).walls.map (fun w => (w.idx, w.turn, w.radius)) =
      (List.range (min cfg sets.length)).map
        (fun (i : ℕ) => (i, (i : ℚ) / ((min cfg sets.length : ℕ) : ℚ), p.baseRadius * (6 / 5))) ∧
    (generateCastle cfg sets mats p).pillars.map (fun q => (q.idx, q.turn, q.radius)) =
      (List.range (min cfg sets.length)).map
        (fun (i : ℕ) => (i,
          ((i : ℚ) / ((min cfg sets.length : ℕ) : ℚ) +
            ((i : ℚ) + 1) / ((min cfg sets.length : ℕ) : ℚ)) / 2,
          p.baseRadius * (6 / 5) + p.wallThickness * (6 / 5) / 2)) ∧
    (generateCastle cfg sets mats p).hasBase = true ∧
    (generateCastle cfg sets mats p).hasFloor = true := by
  refine ⟨?_, ?_, ?_, ?_, rfl, rfl⟩ <;>
    simp [generateCastle, wallFor, pillarFor, List.map_map, Function.comp]

/-! ### Claim C9 -/

lemma glasses_filter_of_le (f : ℕ → Option GlassPane)
    (hf : ∀ j g, f j = some g → g.idx = j) (N i : ℕ) (hN : N ≤ i) :
    ((List.range N).filterMap f).filter (fun g => g.idx == i) = [] := by
  induction N with
  | zero => simp
  | succ n ih =>
    rw [List.range_succ, List.filterMap_append, List.filter_append,
      ih (by omega), List.nil_append]
    cases hfn : f n with
    | none => simp [hfn]
    | some g =>
      have hidx : g.idx = n := hf n g hfn
      have hne : ¬ (n = i) := by omega
      simp [hfn, hidx, hne]

lemma glasses_filter_of_lt (f : ℕ → Option GlassPane)
    (hf : ∀ j g, f j = some g → g.idx = j) (N i : ℕ) (hi : i < N) :
    ((List.range N).filterMap f).filter (fun g => g.idx == i) = (f i).toList := by
  induction N with
  | zero => omega
  | succ n ih =>
    rw [List.range_succ, List.filterMap_append, List.filter_append]
    rcases Nat.lt_succ_iff_lt_or_eq.mp hi with h | h
    · rw [ih h]
      have hnil : ((List.filterMap f [n]).filter (fun g => g.idx == i)) = [] := by
        cases hfn : f n with
        | none => simp [hfn]
        | some g =>
          have hidx : g.idx = n := hf n g hfn
          have hne : ¬ (n = i) := by omega
          simp [hfn, hidx, hne]
      rw [hnil, List.append_nil]
    · subst h
      rw [glasses_filter_of_le f hf i i (le_refl i), List.nil_append]
      cases hfn : f i with
      | none => simp [hfn]
      | some g =>
        have hidx : g.idx = i := hf i g hfn
        simp [hfn, hidx]

/-- Claim C9 (confirmed): for every slot `i` below the window count, the wall
segment at index `i` is always present, and the glass panes with index `i`
are exactly the image of `materials[i]`: none when the material is missing
(silent skip — the embedding is total, so no error is possible), and exactly
one pane carrying that material when it is supplied. -/
theorem c9_missing_material (cfg : ℕ) (sets : List ℚ) (mats : List ℕ)
    (p : CastleParams) (i : ℕ) (hi : i < min cfg sets.length) :
    (generateCastle cfg sets mats p).walls[i]? =
      some (wallFor sets p (min cfg sets.length) i) ∧
    (generateCastle cfg sets mats p).glasses.filter (fun g => g.idx == i) =
      ((mats[i]?).map (glassFor sets p (min cfg sets.length) i)).toList := by
  constructor
  · simp [generateCastle, List.getElem?_map, List.getElem?_range, hi]
  · have hf : ∀ j g, ((mats[j]?).map (glassFor sets p (min cfg sets.length) j)) = some g →
        g.idx = j := by
      intro j g hj
      cases hm : mats[j]? with
      | none => rw [hm] at hj; simp at hj
      | some m =>
        rw [hm] at hj
        simp only [Option.map_some'] at hj
        rw [← Option.some.inj hj]
        rfl
    have := glasses_filter_of_lt _ hf (min cfg sets.length) i hi
    simpa [generateCastle] using this

/-- Claim C9, witness: four texture sets, only two materials supplied; slot 2
has no material, so it gets a wall segment and no glass pane. -/
theorem c9_witness :
    (generateCastle 4 [1, 2, 1 / 2, 1] [7, 8] defaultCastleParams).walls[2]? =
      some (wallFor [1, 2, 1 / 2, 1] defaultCastleParams
        (min 4 (List.length [(1 : ℚ), 2, 1 / 2, 1])) 2) ∧
    (generateCastle 4 [1, 2, 1 / 2, 1] [7, 8] defaultCastleParams).glasses.filter
        (fun g => g.idx == 2) =
      ((([7, 8] : List ℕ)[2]?).map (glassFor [1, 2, 1 / 2, 1] defaultCastleParams
        (min 4 (List.length [(1 : ℚ), 2, 1 / 2, 1])) 2)).toList :=
  c9_missing_material 4 [1, 2, 1 / 2, 1] [7, 8] defaultCastleParams 2 (by simp)

/-! ### Claim C1 -/

/-- Claim C1, counterexample: after generating twice (four texture sets of
aspect ratios 1, 2, 1/2, 1; materials 0-3; default params), the left jamb
geometry of wall section 0 belongs to the first group, yet it is not among
the geometries disposed by the second call — only the `windowMeshes`
geometries (glass panes and skylight) are disposed, so "every geometry
belonging to the previous group is released" is false. -/
theorem c1_counterexample :
    (generateStep freshGenState [] 4 [1, 2, 1 / 2, 1] [0, 1, 2, 3]
        defaultCastleParams).state.castleGroup =
      some (0, (generateCastle 4 [1, 2, 1 / 2, 1] [0, 1, 2, 3] defaultCastleParams).geoms) ∧
    GeomId.wallLeft 0 ∈
      (generateCastle 4 [1, 2, 1 / 2, 1] [0, 1, 2, 3] defaultCastleParams).geoms ∧
    GeomId.wallLeft 0 ∉
      (generateStep
        (generateStep freshGenState [] 4 [1, 2, 1 / 2, 1] [0, 1, 2, 3]
          defaultCastleParams).state
        (generateStep freshGenState [] 4 [1, 2, 1 / 2, 1] [0, 1, 2, 3]
          defaultCastleParams).scene
        4 [1, 2, 1 / 2, 1] [0, 1, 2, 3] defaultCastleParams).disposed := by
  refine ⟨rfl, ?_, ?_⟩
  · show GeomId.wallLeft 0 ∈ (generateCastle _ _ _ _).geoms
    have h0 : GeomId.wallLeft 0 ∈
        slotGeoms [1, 2, 1 / 2, 1] defaultCastleParams [0, 1, 2, 3] 0 := by
      simp [slotGeoms, wallGeomsFor]
    have h1 : slotGeoms [1, 2, 1 / 2, 1] defaultCastleParams [0, 1, 2, 3] 0 ∈
        (List.range (min 4 (List.length [(1 : ℚ), 2, 1 / 2, 1]))).map
          (slotGeoms [1, 2, 1 / 2, 1] defaultCastleParams [0, 1, 2, 3]) :=
      List.mem_map_of_mem _ (by simp)
    exact List.mem_append_left _ (List.mem_append_left _
      (List.mem_flatten.mpr ⟨_, h1, h0⟩))
  · intro hmem
    have : (generateStep
        (generateStep freshGenState [] 4 [1, 2, 1 / 2, 1] [0, 1, 2, 3]
          defaultCastleParams).state
        (generateStep freshGenState [] 4 [1, 2, 1 / 2, 1] [0, 1, 2, 3]
          defaultCastleParams).scene
        4 [1, 2, 1 / 2, 1] [0, 1, 2, 3] defaultCastleParams).disposed =
        [GeomId.glass 0, GeomId.glass 1, GeomId.glass 2, GeomId.glass 3,
          GeomId.skylightPane] := rfl
    rw [this] at hmem
    simp at hmem

/-- Claim C1 (amended): calling `generate` a second time in succession (from
a fresh generator state) removes the previously created castle group from
the scene, leaving exactly one castle group attached, and disposes exactly
the geometries of the previous group's window meshes — the glass panes and
the skylight — before the new group is built and attached; the remaining
geometries of the previous group (stone walls, pillars, base, floor, frame
bars) are not disposed. -/
theorem c1_regeneration (cfg : ℕ) (sets : List ℚ) (mats : List ℕ) (p : CastleParams) :
    (generateStep (generateStep freshGenState [] cfg sets mats p).state
        (generateStep freshGenState [] cfg sets mats p).scene cfg sets mats p).scene =
      [1] ∧
    (generateStep (generateStep freshGenState [] cfg sets mats p).state
        (generateStep freshGenState [] cfg sets mats p).scene cfg sets mats p).disposed =
      (generateCastle cfg sets mats p).windowGeoms :=
  ⟨rfl, rfl⟩

/-! ### PlayerController (PlayerController.js)

Collision-source construction, pointer-lock handling and the ground check of
`checkCollisions` are embedded.  The bounding-box diagonal test
`size.length() < 0.05` is embedded as the equivalent squared comparison
`sizeSq < 0.05²` to stay inside exact rational arithmetic. -/

/-- Material flags read by `buildCollisionFromScene` (line 185):
`transparent` is a boolean, `transmission` a number whose JS truthiness
(non-zero) makes the mesh glass-like. -/
structure MeshMaterial where
  transparent : Bool
  transmission : ℚ
deriving DecidableEq

/-- Mesh as observed by the scene traversal in `buildCollisionFromScene`
(lines 182-212): `sizeSq` is the squared world-space bounding-box diagonal
and `bvhFails` records whether the `MeshBVH` construction throws. -/
structure SceneMesh where
  meshId : ℕ
  isMesh : Bool
  hasGeometry : Bool
  material : Option MeshMaterial
  sizeSq : ℚ
  bvhFails : Bool
deriving DecidableEq

/-- Condition of line 185: skip when a material is present and is flagged
transparent or has truthy (non-zero) transmission. -/
def matBlocked : Option MeshMaterial → Bool
  | some m => m.transparent || m.transmission != 0
  | none => false

/-- Mesh passes every filter of `buildCollisionFromScene`: it is a mesh with
geometry (line 183), not glass (line 185), not tiny (lines 190-193,
`size.length() < 0.05` skipped, i.e. `sizeSq ≥ 0.0025` kept), and its BVH
build does not throw (lines 201-210). -/
def colliderEligible (o : SceneMesh) : Bool :=
  o.isMesh && o.hasGeometry && !matBlocked o.material &&
    !(decide (o.sizeSq < 1 / 400)) && !o.bvhFails

/-- Embedding of `buildCollisionFromScene` (lines 177-215): the rebuilt
collider list keeps exactly the eligible meshes of the scene. -/
def buildCollisionFromScene (objs : List SceneMesh) : List SceneMesh :=
  objs.filter colliderEligible

/-- Held-key flags of the controller (lines 26-32). -/
structure Keys where
  forward : Bool
  backward : Bool
  left : Bool
  right : Bool
  jump : Bool
deriving DecidableEq

/-- Input-facing controller state: the `enabled` gate and the key flags. -/
structure ControllerState where
  enabled : Bool
  keys : Keys
deriving DecidableEq

/-- Embedding of `onPointerLockChange` (lines 128-130): `enabled` becomes
whether `document.pointerLockElement` is the controller's element; nothing
else changes. -/
def onPointerLockChange (st : ControllerState) (lockHeldByElement : Bool) :
    ControllerState :=
  { st with enabled := lockHeldByElement }

/-- Embedding of `unlock` (lines 138-146): disables the controller and
resets the four movement-key flags (the call to
`pointerLockControls.unlock()` is an external effect). -/
def unlock (st : ControllerState) : ControllerState :=
  { st with
    enabled := false
    keys := { st.keys with forward := false, backward := false,
                           left := false, right := false } }

/-- Exact rational 3-vector. -/
structure Vec3 where
  x : ℚ
  y : ℚ
  z : ℚ
deriving DecidableEq

/-- Physics-facing player state mutated by `checkCollisions`. -/
structure PlayerState where
  position : Vec3
  velocity : Vec3
  onGround : Bool
deriving DecidableEq

/-- Standing height of the player, `this.playerHeight = 0.8` (line 13). -/
def playerHeight : ℚ := 4 / 5

/-- Embedding of `checkCollisions` (lines 218-275) for an empty collider
list: the shapecast loop leaves the capsule segment unchanged, so the
resolved position equals the incoming one, and only the ground check of
lines 266-274 acts: if `position.y < playerHeight + 0.01` the height is
clamped to `playerHeight`, and if moreover `velocity.y < 0` the vertical
velocity is zeroed and `onGround` set. -/
def checkCollisionsGround (st : PlayerState) : PlayerState :=
  if st.position.y < playerHeight + 1 / 100 then
    if st.velocity.y < 0 then
      { position := { st.position with y := playerHeight }
        velocity := { st.velocity with y := 0 }
        onGround := true }
    else
      { st with position := { st.position with y := playerHeight } }
  else st

/-! ### Claim C6 -/

/-- Claim C6 (confirmed): every entry of the collider list built by
`buildCollisionFromScene` refers to a mesh whose material (when present) is
neither flagged transparent nor transmissive and whose world bounding-box
diagonal is at least `0.05` (squared: `sizeSq ≥ 1/400`); and a mesh failing
either test is never in the collider list. -/
theorem c6_collider_invariant (objs : List SceneMesh) :
    (∀ c ∈ buildCollisionFromScene objs,
      (∀ m, c.material = some m → m.transparent = false ∧ m.transmission = 0) ∧
      (1 / 400 : ℚ) ≤ c.sizeSq) ∧
    (∀ o : SceneMesh, matBlocked o.material = true ∨ o.sizeSq < 1 / 400 →
      o ∉ buildCollisionFromScene objs) := by
  constructor
  · intro c hc
    rw [buildCollisionFromScene, List.mem_filter] at hc
    have helig := hc.2
    rw [colliderEligible] at helig
    simp only [Bool.and_eq_true, Bool.not_eq_true'] at helig
    obtain ⟨⟨⟨⟨_, _⟩, hmat⟩, hsize⟩, _⟩ := helig
    constructor
    · intro m hm
      rw [hm, matBlocked] at hmat
      simp only [Bool.or_eq_false_iff, bne_eq_false_iff_eq] at hmat
      exact ⟨hmat.1, hmat.2⟩
    · have := of_decide_eq_false hsize
      exact le_of_not_lt this
  · intro o ho hmem
    rw [buildCollisionFromScene, List.mem_filter] at hmem
    have helig := hmem.2
    rw [colliderEligible] at helig
    simp only [Bool.and_eq_true, Bool.not_eq_true'] at helig
    obtain ⟨⟨⟨⟨_, _⟩, hmat⟩, hsize⟩, _⟩ := helig
    rcases ho with hb | hs
    · rw [hb] at hmat
      exact absurd hmat (by simp)
    · exact absurd hs (by simpa using of_decide_eq_false hsize)

/-- Claim C6, witness: a single opaque unit-sized mesh is kept by the filter
and satisfies both guarantees. -/
theorem c6_witness :
    (∀ m, (SceneMesh.mk 0 true true (some (MeshMaterial.mk false 0)) 1 false).material =
        some m → m.transparent = false ∧ m.transmission = 0) ∧
    (1 / 400 : ℚ) ≤ (SceneMesh.mk 0 true true (some (MeshMaterial.mk false 0)) 1 false).sizeSq :=
  (c6_collider_invariant
      [SceneMesh.mk 0 true true (some (MeshMaterial.mk false 0)) 1 false]).1
    (SceneMesh.mk 0 true true (some (MeshMaterial.mk false 0)) 1 false)
    (by simp [buildCollisionFromScene, colliderEligible, matBlocked]; norm_num)

/-! ### Claim C7 -/

/-- Claim C7, counterexample: with the forward key held, a pointer-lock loss
observed by `onPointerLockChange` disables the controller but leaves the
forward flag set — the handler does not clear the movement keys (only the
explicit `unlock()` method does). -/
theorem c7_counterexample :
    (onPointerLockChange
        (ControllerState.mk true (Keys.mk true false false false false)) false).enabled =
      false ∧
    (onPointerLockChange
        (ControllerState.mk true (Keys.mk true false false false false)) false).keys.forward =
      true :=
  ⟨rfl, rfl⟩

/-- Claim C7 (amended): when the pointer-lock-change event observes the lock
no longer held by the controller's element, the controller transitions to
Disabled, but the held movement-key flags are left unchanged by the handler;
the four movement keys are cleared (with `jump` untouched and the controller
disabled) only by the explicit `unlock()` method. -/
theorem c7_lock_loss (st : ControllerState) :
    (onPointerLockChange st false).enabled = false ∧
    (onPointerLockChange st false).keys = st.keys ∧
    (unlock st).enabled = false ∧
    (unlock st).keys.forward = false ∧
    (unlock st).keys.backward = false ∧
    (unlock st).keys.left = false ∧
    (unlock st).keys.right = false ∧
    (unlock st).keys.jump = st.keys.jump :=
  ⟨rfl, rfl, rfl, rfl, rfl, rfl, rfl, rfl⟩

/-! ### Claim C8 -/

/-- Claim C8, counterexample: at resolved height exactly `playerHeight`
(at the claimed "at or below standing height") with vertical velocity
exactly `0` (`≤ 0` as the claim demands) and `onGround = false`, the code
leaves `onGround` false, because line 270 requires `velocity.y < 0`
strictly; the claimed Airborne→Grounded transition does not happen. -/
theorem c8_counterexample :
    (PlayerState.mk (Vec3.mk 0 (4 / 5) 2) (Vec3.mk 0 0 0) false).position.y ≤
      playerHeight ∧
    (PlayerState.mk (Vec3.mk 0 (4 / 5) 2) (Vec3.mk 0 0 0) false).velocity.y ≤ 0 ∧
    (checkCollisionsGround
        (PlayerState.mk (Vec3.mk 0 (4 / 5) 2) (Vec3.mk 0 0 0) false)).onGround = false := by
  refine ⟨le_refl _, le_refl _, ?_⟩
  rw [checkCollisionsGround]
  rw [if_pos (by norm_num [playerHeight])]
  rw [if_neg (by norm_num)]

/-- Claim C8 (amended): in the ground check of the per-tick collision
resolution, whenever the resolved vertical position is below
`playerHeight + 0.01` the position is clamped to the standing height, and
when additionally the vertical velocity is strictly negative (descending)
the vertical velocity is zeroed and `onGround` becomes true. -/
theorem c8_landing (st : PlayerState)
    (hy : st.position.y < playerHeight + 1 / 100) :
    (checkCollisionsGround st).position.y = playerHeight ∧
    (st.velocity.y < 0 →
      (checkCollisionsGround st).velocity.y = 0 ∧
      (checkCollisionsGround st).onGround = true) := by
  rw [checkCollisionsGround, if_pos hy]
  by_cases hv : st.velocity.y < 0
  · rw [if_pos hv]
    exact ⟨rfl, fun _ => ⟨rfl, rfl⟩⟩
  · rw [if_neg hv]
    exact ⟨rfl, fun h => absurd h hv⟩

/-- Claim C8, witness: a descending player slightly below standing height is
clamped, stopped vertically, and grounded. -/
theorem c8_witness :
    (checkCollisionsGround
        (PlayerState.mk (Vec3.mk 0 (1 / 2) 0) (Vec3.mk 0 (-1) 0) false)).position.y =
      playerHeight ∧
    ((PlayerState.mk (Vec3.mk 0 (1 / 2) 0) (Vec3.mk 0 (-1) 0) false).velocity.y < 0 →
      (checkCollisionsGround
          (PlayerState.mk (Vec3.mk 0 (1 / 2) 0) (Vec3.mk 0 (-1) 0) false)).velocity.y = 0 ∧
      (checkCollisionsGround
          (PlayerState.mk (Vec3.mk 0 (1 / 2) 0) (Vec3.mk 0 (-1) 0) false)).onGround = true) :=
  c8_landing (PlayerState.mk (Vec3.mk 0 (1 / 2) 0) (Vec3.mk 0 (-1) 0) false)
    (by norm_num [playerHeight])

end StainedGlass
